import Mathlib

/-!
Verification of cloudknot's resource-lifecycle and batch-job logic.

Shallow embedding of the core of the `cloudknot` package:

* `src/cloudknot/aws/batch.py` — the `BatchJob` class (constructor
  validation, `status`, `done`, `_create`, `_collect_array_job_result`,
  `result`, `terminate`, `clobber`);
* `src/cloudknot/aws/base_classes.py` — `NamedObject.__init__` and the
  `clobbered` flag;
* `src/cloudknot/aws/ecr.py` — `DockerRepo.clobber` error handling;
* `cloudknot/cloudknot.py` — the `Pars` resource group (constructor
  validation against the durable record, the `vpc` / `security_group`
  setters, `clobber`).

Remote AWS services are modelled by explicit environment records (the
status that `describe_jobs` would return, the object store as a partial
map from keys to payload bytes); Python exceptions become an explicit
`CKErr` error type threaded through `Except`.
-/

namespace Cloudknot

/-- Errors raised by cloudknot operations, mirroring the exception
taxonomy of `base_classes.py` (plus `ValueError` used by `Pars` and the
`botocore` `ClientError` used in `ecr.py`). -/
inductive CKErr where
  | resourceClobbered (resourceId : String)
  | resourceDoesNotExist (resourceId : String)
  | resourceExists (resourceId : String)
  | regionMismatch
  | profileMismatch
  | inputError (msg : String)
  | valueError (msg : String)
  | configError (msg : String)
  | ckTimeout (bucket : Option String) (key : String)
  | batchJobFailed (jobId : String)
  | clientError (code : String) (msg : String)
  deriving DecidableEq, Repr

/-- AWS Batch job states, as reported in the `status` field of a
`describe_jobs` response. -/
inductive JobStatus where
  | SUBMITTED | PENDING | RUNNABLE | STARTING | RUNNING | SUCCEEDED | FAILED
  deriving DecidableEq, Repr

/-- The slice of a `describe_jobs` response used by `BatchJob.status`:
the `status` field and the list of attempt records (only the count of
attempts matters to the embedded code, so attempt records are left
abstract as unit values). -/
structure StatusResult where
  status : JobStatus
  attempts : List Unit
  deriving DecidableEq, Repr

/-- The `JobDef` named tuple from `batch.py`: information about an AWS Batch
job definition. -/
structure JobDef where
  name : String
  arn : String
  output_bucket : Option String
  retries : Nat
  deriving DecidableEq, Repr

/-- The environment a `BatchJob` method call runs against: the active
region/profile, what `describe_jobs` currently reports for this job, and
the S3 object store (`get_object` as a partial map from bucket and key to
payload bytes). -/
structure BatchEnv where
  region : String
  profile : String
  jobStatus : StatusResult
  s3 : Option String → String → Option String

/-- State of a constructed `BatchJob` instance: the `NamedObject` fields
(name, region, profile, clobbered) plus the job fields set by
`BatchJob.__init__`.  `input` is the list of pickled elements (an array
job's size is `input.length`). -/
structure BatchJob where
  name : String
  region : String
  profile : String
  clobbered : Bool
  job_id : String
  job_queue_arn : String
  job_definition : JobDef
  input : List String
  starmap : Bool
  array_job : Bool
  deriving DecidableEq, Repr

namespace BatchJob

/-- Model of `BatchJob.status` (batch.py lines 359-387): raise
`ResourceClobberedException` if the job is clobbered, then
`check_profile_and_region` (region first, then profile, base_classes.py
lines 1038-1043), then return the remote job's status record. -/
def status (j : BatchJob) (env : BatchEnv) : Except CKErr StatusResult :=
  if j.clobbered then .error (.resourceClobbered j.job_id)
  else if j.region ≠ env.region then .error .regionMismatch
  else if j.profile ≠ env.profile then .error .profileMismatch
  else .ok env.jobStatus

/-- Model of `BatchJob.done` (batch.py lines 413-424): the job is done when its
status is SUCCEEDED, or FAILED with at least `retries` recorded
attempts. -/
def done (j : BatchJob) (env : BatchEnv) : Except CKErr Bool :=
  (j.status env).map (fun stat =>
    stat.status == .SUCCEEDED
      || (stat.status == .FAILED
          && j.job_definition.retries ≤ stat.attempts.length))

end BatchJob

end Cloudknot

namespace Cloudknot

/-- A remote AWS Batch API call issued by `terminate` / `clobber`, or the
config-file mutation done by `clobber`. -/
inductive BatchCall where
  | cancelJob (jobId : String) (reason : String)
  | terminateJob (jobId : String) (reason : String)
  | removeResource (jobId : String)
  deriving DecidableEq, Repr

namespace BatchJob

/-- Model of `BatchJob.terminate` (batch.py lines 514-556): after the clobbered
and region/profile checks, read the current status; statuses SUBMITTED,
PENDING, RUNNABLE get one `cancel_job` call, STARTING and RUNNING get one
`terminate_job` call, anything else gets no remote call.  The returned
list is the sequence of remote calls issued.  (The `reason` argument is a
`String` by typing, so the `isinstance(reason, str)` check always
passes.) -/
def terminate (j : BatchJob) (env : BatchEnv) (reason : String) :
    Except CKErr (List BatchCall) :=
  if j.clobbered then .error (.resourceClobbered j.job_id)
  else if j.region ≠ env.region then .error .regionMismatch
  else if j.profile ≠ env.profile then .error .profileMismatch
  else
    match env.jobStatus.status with
    | .SUBMITTED | .PENDING | .RUNNABLE => .ok [.cancelJob j.job_id reason]
    | .STARTING | .RUNNING => .ok [.terminateJob j.job_id reason]
    | _ => .ok []

/-- Model of `BatchJob.clobber` (batch.py lines 558-572): no-op if already
clobbered; otherwise check region/profile, terminate the job with a fixed
reason, mark the instance clobbered, and remove the job from the config
file.  Returns the new instance state and the calls issued. -/
def clobber (j : BatchJob) (env : BatchEnv) :
    Except CKErr (BatchJob × List BatchCall) :=
  if j.clobbered then .ok (j, [])
  else if j.region ≠ env.region then .error .regionMismatch
  else if j.profile ≠ env.profile then .error .profileMismatch
  else
    match j.terminate env
        "Cloudknot job killed after calling BatchJob.clobber()" with
    | .error e => .error e
    | .ok calls =>
        .ok ({ j with clobbered := true }, calls ++ [.removeResource j.job_id])

end BatchJob

/-- Python's `"{0:03d}".format(n)`: decimal representation of `n`
zero-padded on the left to width 3. -/
def fmt03d (n : Nat) : String :=
  if n < 10 then "00" ++ toString n
  else if n < 100 then "0" ++ toString n
  else toString n

/-- The S3 key at which `BatchJob._create` (batch.py lines 330-337) and
`BatchJob.__init__` (lines 186-193) stage and re-read a job's input:
`cloudknot.jobs/<job-definition-name>/<job-id>/input.pickle`.  The same
key is used whether or not the job is an array job. -/
def inputKey (jdName jobId : String) : String :=
  String.intercalate "/" ["cloudknot.jobs", jdName, jobId, "input.pickle"]

/-- The S3 key probed by `BatchJob._collect_array_job_result` (batch.py
lines 449-458):
`cloudknot.jobs/<job-definition-name>/<job-id>/<idx>/<attempt:03d>/output.pickle`.
The index segment is always present; `result` passes `idx = 0` for
non-array jobs. -/
def outputKey (jdName jobId : String) (idx attempt : Nat) : String :=
  String.intercalate "/"
    ["cloudknot.jobs", jdName, jobId, toString idx, fmt03d attempt,
     "output.pickle"]

/-- The `while not result_retrieved and attempt >= 0` loop of
`BatchJob._collect_array_job_result` (batch.py lines 444-470): probe the
output key at the given attempt number; on a hit return the payload, on
`NoSuchKey` decrement the attempt, and once attempt 0 also misses raise
`CKTimeoutError` carrying the bucket and the last key probed (the
attempt-0 key). -/
def scanAttempts (get : String → Option String) (bucket : Option String)
    (jdName jobId : String) (idx : Nat) : Nat → Except CKErr String
  | 0 =>
      match get (outputKey jdName jobId idx 0) with
      | some body => .ok body
      | none => .error (.ckTimeout bucket (outputKey jdName jobId idx 0))
  | a + 1 =>
      match get (outputKey jdName jobId idx (a + 1)) with
      | some body => .ok body
      | none => scanAttempts get bucket jdName jobId idx a

namespace BatchJob

/-- Model of `BatchJob._collect_array_job_result` (batch.py lines 426-470): scan
attempts from the job definition's retry ceiling down to 0 against the
job definition's output bucket. -/
def collectArrayJobResult (j : BatchJob) (env : BatchEnv) (idx : Nat) :
    Except CKErr String :=
  scanAttempts (env.s3 j.job_definition.output_bucket)
    j.job_definition.output_bucket j.job_definition.name j.job_id idx
    j.job_definition.retries

end BatchJob

/-- The value returned by `BatchJob.result`: a single payload for a
non-array job, an ordered list of payloads for an array job. -/
inductive ResultValue where
  | single (v : String)
  | array (vs : List String)
  deriving DecidableEq, Repr

namespace BatchJob

/-- The result-collection tail of `BatchJob.result` (batch.py lines
505-512), after the polling loop has established `done`: raise
`BatchJobFailedError` if the terminal status is FAILED; otherwise, for an
array job collect `_collect_array_job_result(idx)` for
`idx in range(len(input))` in order, and for a single job collect with
the default index 0. -/
def resultCollection (j : BatchJob) (env : BatchEnv) :
    Except CKErr ResultValue :=
  match j.status env with
  | .error e => .error e
  | .ok stat =>
      if stat.status = .FAILED then .error (.batchJobFailed j.job_id)
      else if j.array_job then
        ((List.range j.input.length).mapM (j.collectArrayJobResult env)).map
          ResultValue.array
      else (j.collectArrayJobResult env 0).map ResultValue.single

end BatchJob

/-- One externally visible action performed by `BatchJob._create`. -/
inductive CreateAction where
  | submitJob (jobName : String) (queueArn : String)
      (arraySize : Option Nat) (jobDefArn : String)
  | putObject (bucket : Option String) (key : String)
  | addConfigResource (jobId : String) (jobName : String)
  deriving DecidableEq, Repr

namespace BatchJob

/-- Model of `BatchJob._create` (batch.py lines 278-357) as a trace of remote
actions.  `newJobId` is the job id the `submit_job` response returns.
The job is submitted first (with `arrayProperties.size = len(input)` for
an array job), then the pickled input is uploaded at
`inputKey` — a key that only becomes known once submission has returned
the job id — and finally the job is recorded in the config file.
Returns the job id together with the ordered action trace. -/
def createTrace (j : BatchJob) (newJobId : String) :
    String × List CreateAction :=
  (newJobId,
    [ .submitJob j.name j.job_queue_arn
        (if j.array_job then some j.input.length else none)
        j.job_definition.arn,
      .putObject j.job_definition.output_bucket
        (inputKey j.job_definition.name newJobId),
      .addConfigResource newJobId j.name ])

end BatchJob

/-- The name pattern enforced by `NamedObject.__init__`
(base_classes.py line 993): `^[a-zA-Z][-a-zA-Z0-9]*$`. -/
def nameOk (s : String) : Bool :=
  match s.data with
  | [] => false
  | c :: rest =>
      (c.isUpper || c.isLower)
        && rest.all (fun d => d.isUpper || d.isLower || d.isDigit || d = '-')

/-- The fields `NamedObject.__init__` initialises (base_classes.py lines
1001-1004). -/
structure NamedObjectState where
  name : String
  clobbered : Bool
  region : String
  profile : String
  deriving DecidableEq, Repr

/-- Model of `NamedObject.__init__` (base_classes.py lines 972-1004): raise
`CloudknotConfigurationError` unless the config file's `aws` section says
`configured = True`; raise `CloudknotInputError` unless the name matches
`^[a-zA-Z][-a-zA-Z0-9]*$`; otherwise bind the name to the currently
active region and profile with the `clobbered` flag starting false. -/
def namedObjectInit (name : String) (configured : Bool)
    (region profile : String) : Except CKErr NamedObjectState :=
  if ¬ configured then
    .error (.configError "cloudknot is not configured")
  else if ¬ nameOk name then
    .error (.inputError
      "name must satisfy the regular expression pattern")
  else .ok { name := name, clobbered := false, region := region,
             profile := profile }

/-- Python truthiness of an optional string argument: `None` and the
empty string are falsy. -/
def truthyStr : Option String → Bool
  | none => false
  | some s => !s.isEmpty

/-- The arguments of `BatchJob.__init__` that participate in its
mode-exclusion check (batch.py lines 105-166).  `input_` is `some`
exactly when the caller passed a non-`None` input (the code tests
`input_ is not None`, not truthiness); `job_definition` is a `JobDef`
named tuple, which is always truthy when present. -/
structure BatchJobArgs where
  job_id : Option String
  name : Option String
  job_queue : Option String
  job_definition : Option JobDef
  input_ : Option String
  deriving DecidableEq, Repr

/-- The mode-exclusion validation at the top of `BatchJob.__init__`
(batch.py lines 154-166): raise `CloudknotInputError` if neither
`job_id` nor all of (name, job_queue, input, job_definition) are
supplied, and again if `job_id` is supplied together with any of the
other four. -/
def batchJobInitCheck (a : BatchJobArgs) : Except CKErr Unit :=
  let has_input := a.input_.isSome
  if ¬ (truthyStr a.job_id
        || (truthyStr a.name && truthyStr a.job_queue && has_input
            && a.job_definition.isSome)) then
    .error (.inputError
      "You must supply either job_id or (name, input_, job_queue, and job_definition).")
  else if truthyStr a.job_id
      && (truthyStr a.name || truthyStr a.job_queue || has_input
          || a.job_definition.isSome) then
    .error (.inputError
      "You may supply either job_id or (name, input_, job_queue, and job_definition), not both.")
  else .ok ()

/-- An operation invoked on a constructed `BatchJob`. -/
inductive JobOp where
  | statusQ
  | terminateOp (reason : String)
  | clobberOp
  deriving DecidableEq, Repr

/-- What a `JobOp` returns when it does not raise. -/
inductive JobOpResult where
  | statusR (s : StatusResult)
  | calls (cs : List BatchCall)
  deriving DecidableEq, Repr

namespace BatchJob

/-- One method call on a `BatchJob` instance, paired with the instance
state after the call.  `status` and `terminate` never mutate the
instance; `clobber` flips the `clobbered` flag exactly when it succeeds
on a not-yet-clobbered instance (batch.py lines 558-572), and leaves the
state unchanged when it raises (the flag is only assigned after the
checks and the terminate call). -/
def step (j : BatchJob) (env : BatchEnv) :
    JobOp → BatchJob × Except CKErr JobOpResult
  | .statusQ => (j, (j.status env).map JobOpResult.statusR)
  | .terminateOp reason => (j, (j.terminate env reason).map JobOpResult.calls)
  | .clobberOp =>
      match j.clobber env with
      | .error e => (j, .error e)
      | .ok (j2, cs) => (j2, .ok (.calls cs))

end BatchJob

/-- Modelled from the spec: the IAM-role resource class (`aws.iam.IamRole`)
is not present under `src/`; `Pars` only reads its `name` attribute and
calls its `clobber` method, so a role is modelled by its name. -/
structure IamRole where
  name : String
  deriving DecidableEq, Repr

/-- Modelled from the spec: the VPC resource class (`aws.ec2.Vpc`) is not
present under `src/`; `Pars` only reads its `vpc_id` attribute and calls
its `clobber` method. -/
structure Vpc where
  vpc_id : String
  deriving DecidableEq, Repr

/-- Modelled from the spec: the security-group resource class
(`aws.ec2.SecurityGroup`) is not present under `src/`; `Pars` reads its
`security_group_id`, `name` and `description` attributes, calls its
`clobber` method, and constructs a new one from a name, a VPC and a
description (the remote service assigns the new group's id). -/
structure SecurityGroup where
  security_group_id : String
  name : String
  description : String
  vpc_id : String
  deriving DecidableEq, Repr

/-- An externally visible action performed by a `Pars` method:
destruction of a constituent, creation of a new security group, or a
mutation of the durable config record. -/
inductive ParsEvent where
  | clobberRole (roleName : String)
  | clobberVpc (vpcId : String)
  | clobberSecurityGroup (sgId : String)
  | createSecurityGroup (sgName sgDesc vpcId newSgId : String)
  | configSet (sectionName key value : String)
  | configRemoveSection (sectionName : String)
  deriving DecidableEq, Repr

/-- State of a `Pars` instance (cloudknot.py lines 54-630): the five
constituents and the config-section name `"pars " + name`. -/
structure Pars where
  name : String
  pars_name : String
  batch_service_role : IamRole
  ecs_instance_role : IamRole
  spot_fleet_role : IamRole
  vpc : Vpc
  security_group : SecurityGroup
  deriving DecidableEq, Repr

namespace Pars

/-- Model of `Pars.clobber` (cloudknot.py lines 609-630): clobber the security
group, then the VPC, then the spot-fleet role, the ECS-instance role and
the batch-service role, and finally remove the PARS section from the
config file.  Returns the ordered trace of actions. -/
def clobberTrace (p : Pars) : List ParsEvent :=
  [ .clobberSecurityGroup p.security_group.security_group_id,
    .clobberVpc p.vpc.vpc_id,
    .clobberRole p.spot_fleet_role.name,
    .clobberRole p.ecs_instance_role.name,
    .clobberRole p.batch_service_role.name,
    .configRemoveSection p.pars_name ]

/-- The `security_group` property setter (cloudknot.py lines 567-607):
clobber the old security group, adopt the new one, and persist the new
group's id under the PARS section.  Returns the new instance state and
the ordered action trace. -/
def setSecurityGroup (p : Pars) (sg : SecurityGroup) :
    Pars × List ParsEvent :=
  ({ p with security_group := sg },
   [ .clobberSecurityGroup p.security_group.security_group_id,
     .configSet p.pars_name "security-group" sg.security_group_id ])

/-- The `vpc` property setter (cloudknot.py lines 512-563): build a new
security group against the new VPC with the old group's name and
description (`newSgId` is the id the remote service assigns to it), hand
it to the `security_group` setter (which clobbers the old group and
persists the new one), then clobber the old VPC, adopt the new one, and
persist the new VPC id.  Returns the new instance state and the ordered
action trace. -/
def setVpc (p : Pars) (v : Vpc) (newSgId : String) :
    Pars × List ParsEvent :=
  let sgName := p.security_group.name
  let sgDesc := p.security_group.description
  let newSg : SecurityGroup :=
    { security_group_id := newSgId, name := sgName, description := sgDesc,
      vpc_id := v.vpc_id }
  let oldVpcId := p.vpc.vpc_id
  let result := p.setSecurityGroup newSg
  ({ result.1 with vpc := v },
   .createSecurityGroup sgName sgDesc v.vpc_id newSgId :: result.2
     ++ [ .clobberVpc oldVpcId, .configSet p.pars_name "vpc" v.vpc_id ])

end Pars

/-- The caller-suppliable constituent arguments of `Pars.__init__`
(cloudknot.py lines 62-65). -/
structure ParsArgs where
  batch_service_role_name : Option String
  ecs_instance_role_name : Option String
  spot_fleet_role_name : Option String
  vpc_id : Option String
  vpc_name : Option String
  security_group_id : Option String
  security_group_name : Option String
  deriving DecidableEq, Repr

/-- The recorded constituent identifiers in an existing `pars <name>`
config section (cloudknot.py lines 142, 163, 184, 207, 222). -/
structure ParsRecord where
  batchServiceRole : String
  ecsInstanceRole : String
  spotFleetRole : String
  vpcId : String
  securityGroupId : String
  deriving DecidableEq, Repr

/-- One adopt-or-recreate reconciliation step performed by the
existing-name branch of `Pars.__init__`. -/
inductive ParsInitEvent where
  | reconcileRole (recordedName : String)
  | reconcileVpc (recordedId : String)
  | reconcileSecurityGroup (recordedId : String)
  deriving DecidableEq, Repr

/-- The existing-name branch of `Pars.__init__` (cloudknot.py lines
133-249): if any of `batch_service_role_name`, `ecs_instance_role_name`,
`spot_fleet_role_name`, `vpc_id`, `security_group_id` is truthy, raise
`ValueError` before touching any constituent; otherwise reconcile each
recorded constituent in order (adopt it, or recreate it if the remote
object is missing).  `vpc_name` and `security_group_name` are *not* part
of the check — they are only used as creation names should the recorded
VPC or security group be missing remotely. -/
def parsInitExisting (rec : ParsRecord) (a : ParsArgs) :
    Except CKErr (List ParsInitEvent) :=
  if truthyStr a.batch_service_role_name || truthyStr a.ecs_instance_role_name
      || truthyStr a.spot_fleet_role_name || truthyStr a.vpc_id
      || truthyStr a.security_group_id then
    .error (.valueError
      "You provided resources for a pars that already exists in configuration file.")
  else
    .ok [ .reconcileRole rec.batchServiceRole,
          .reconcileRole rec.ecsInstanceRole,
          .reconcileRole rec.spotFleetRole,
          .reconcileVpc rec.vpcId,
          .reconcileSecurityGroup rec.securityGroupId ]

/-- Python's substring test `sub in s`. -/
def strContains (s sub : String) : Bool :=
  (s.splitOn sub).length != 1

/-- State of a `DockerRepo` instance (ecr.py lines 41-101): its
`NamedObject` fields plus the registry id of the remote repository. -/
structure DockerRepo where
  name : String
  region : String
  profile : String
  clobbered : Bool
  repo_registry_id : String
  deriving DecidableEq, Repr

/-- Environment of a `DockerRepo.clobber` call: the active
region/profile and the name of the default cloudknot ECR repository
returned by `get_ecr_repo()` (which must never be deleted). -/
structure EcrEnv where
  region : String
  profile : String
  ecrRepoName : String
  deriving DecidableEq, Repr

/-- The outcome of the `delete_repository` call inside
`DockerRepo.clobber`: success, the typed
`RepositoryNotFoundException`, or a generic `botocore` `ClientError`
carrying an error code and message. -/
inductive DeleteRepoOutcome where
  | success
  | repoNotFoundExc
  | clientError (code : String) (msg : String)
  deriving DecidableEq, Repr

/-- An externally visible step of `DockerRepo.clobber`. -/
inductive RepoStep where
  | deleteRepository (registryId repoName : String)
  | removeConfigResource (repoName : String)
  deriving DecidableEq, Repr

namespace DockerRepo

/-- Model of `DockerRepo.clobber` (ecr.py lines 147-181): no-op when already
clobbered; otherwise check region/profile, then (unless this is the
default cloudknot repository) call `delete_repository` and handle its
outcome — the typed `RepositoryNotFoundException` is passed over, and a
generic `ClientError` is caught, its code and message are compared
against `"RepositoryNotFoundException"`, and in *both* branches of that
comparison the handler falls through without re-raising (the source has
no `else: raise`).  The method then removes the repo from the config
file and sets the clobbered flag.  Returns the new instance state and
the steps performed. -/
def clobber (r : DockerRepo) (env : EcrEnv)
    (deleteOutcome : DeleteRepoOutcome) :
    Except CKErr (DockerRepo × List RepoStep) :=
  if r.clobbered then .ok (r, [])
  else if r.region ≠ env.region then .error .regionMismatch
  else if r.profile ≠ env.profile then .error .profileMismatch
  else
    let deleteSteps : List RepoStep :=
      if r.name ≠ env.ecrRepoName then
        [.deleteRepository r.repo_registry_id r.name]
      else []
    let afterDelete : Except CKErr Unit :=
      if r.name ≠ env.ecrRepoName then
        match deleteOutcome with
        | .success => .ok ()
        | .repoNotFoundExc => .ok ()
        | .clientError code msg =>
            if code == "RepositoryNotFoundException"
                || strContains msg "RepositoryNotFoundException" then
              .ok ()
            else
              .ok ()
      else .ok ()
    match afterDelete with
    | .error e => .error e
    | .ok _ =>
        .ok ({ r with clobbered := true },
             deleteSteps ++ [.removeConfigResource r.name])

end DockerRepo

/-! ### Concrete instances used in the example theorems below -/

/-- A job definition with a retry ceiling of 3. -/
def jdEx : JobDef :=
  { name := "jd", arn := "arn:jd", output_bucket := some "bkt", retries := 3 }

/-- An array job over two input elements. -/
def jobEx : BatchJob :=
  { name := "myjob", region := "us-east-1", profile := "default",
    clobbered := false, job_id := "jid-1", job_queue_arn := "arn:queue",
    job_definition := jdEx, input := ["a", "b"], starmap := false,
    array_job := true }

/-- The job `jobEx` after its `clobbered` flag has been set. -/
def jobClobberedEx : BatchJob :=
  { jobEx with clobbered := true }

/-- A non-array variant of `jobEx`. -/
def jobSingleEx : BatchJob :=
  { jobEx with array_job := false, input := ["a"] }

/-- An object store holding outputs for `jobEx`: index 0 has only its
attempt-2 output staged, index 1 only its attempt-0 output. -/
def s3Ex : Option String → String → Option String :=
  fun bucket key =>
    if bucket = some "bkt" then
      if key = outputKey "jd" "jid-1" 0 2 then some "payload2"
      else if key = outputKey "jd" "jid-1" 1 0 then some "payload-b"
      else none
    else none

/-- Environment in which `jobEx` has SUCCEEDED and `s3Ex` holds its
outputs. -/
def envSucceededEx : BatchEnv :=
  { region := "us-east-1", profile := "default",
    jobStatus := { status := .SUCCEEDED, attempts := [()] }, s3 := s3Ex }

/-- Environment in which `jobEx` reports FAILED with one recorded
attempt. -/
def envFailedEx : BatchEnv :=
  { region := "us-east-1", profile := "default",
    jobStatus := { status := .FAILED, attempts := [()] },
    s3 := fun _ _ => none }

/-- Environment in which `jobEx` reports SUBMITTED. -/
def envSubmittedEx : BatchEnv :=
  { region := "us-east-1", profile := "default",
    jobStatus := { status := .SUBMITTED, attempts := [] },
    s3 := fun _ _ => none }

/-- A recorded PARS section. -/
def parsRecordEx : ParsRecord :=
  { batchServiceRole := "r1", ecsInstanceRole := "r2", spotFleetRole := "r3",
    vpcId := "vpc-123", securityGroupId := "sg-123" }

/-- Constructor arguments supplying only a network *name* for an
already-recorded PARS. -/
def parsArgsVpcNameEx : ParsArgs :=
  { batch_service_role_name := none, ecs_instance_role_name := none,
    spot_fleet_role_name := none, vpc_id := none,
    vpc_name := some "my-vpc", security_group_id := none,
    security_group_name := none }

/-- A docker repository that is not the default cloudknot repository. -/
def repoEx : DockerRepo :=
  { name := "myrepo", region := "us-east-1", profile := "default",
    clobbered := false, repo_registry_id := "0123" }

/-- Environment for `repoEx`. -/
def ecrEnvEx : EcrEnv :=
  { region := "us-east-1", profile := "default", ecrRepoName := "cloudknot" }

/-! ## Theorems -/

/-- C1: for every `BatchJob`, `done` is true iff the current status is
SUCCEEDED, or the status is FAILED and the number of recorded attempts
has reached the job definition's retry ceiling; in particular `done` is
false whenever the status is FAILED with strictly fewer attempts. -/
theorem C1_done_iff_succeeded_or_retries_exhausted
    (j : BatchJob) (env : BatchEnv)
    (hc : j.clobbered = false) (hr : j.region = env.region)
    (hp : j.profile = env.profile) :
    (j.done env = .ok true ↔
      env.jobStatus.status = .SUCCEEDED ∨
        (env.jobStatus.status = .FAILED ∧
          j.job_definition.retries ≤ env.jobStatus.attempts.length)) ∧
    (env.jobStatus.status = .FAILED →
      env.jobStatus.attempts.length < j.job_definition.retries →
      j.done env = .ok false) := by
  have hstat : j.status env = .ok env.jobStatus := by
    simp [BatchJob.status, hc, hr, hp]
  constructor
  · simp [BatchJob.done, hstat, Except.map]
  · intro hF hlt
    simp [BatchJob.done, hstat, hF, Except.map]
    omega

/-- Witness for C1: `jobEx` has a retry ceiling of 3; in `envFailedEx` it
reports FAILED with one recorded attempt, so it is not yet done. -/
theorem C1_witness_failed_with_retries_left :
    BatchJob.done jobEx envFailedEx = .ok false :=
  (C1_done_iff_succeeded_or_retries_exhausted jobEx envFailedEx
    rfl rfl rfl).2 rfl (by decide)

/-- C3: `Pars.clobber` destroys the security group, the VPC, the
spot-fleet role, the ECS-instance role and the batch-service role in
exactly that order, and removes the group's config section only after
all five destructions (it is the last action of the trace). -/
theorem C3_pars_clobber_fixed_reverse_order (p : Pars) :
    p.clobberTrace =
      [ .clobberSecurityGroup p.security_group.security_group_id,
        .clobberVpc p.vpc.vpc_id,
        .clobberRole p.spot_fleet_role.name,
        .clobberRole p.ecs_instance_role.name,
        .clobberRole p.batch_service_role.name,
        .configRemoveSection p.pars_name ] := rfl

/-- C4: replacing the network of a `Pars` creates exactly one new
security group, which preserves the old group's name and description and
is bound to the new VPC; the trace order is: new security group created,
old security group clobbered (and the new one persisted), old VPC
clobbered, new VPC persisted; the final state holds the new VPC and the
new security group. -/
theorem C4_vpc_replacement_rebuilds_security_group
    (p : Pars) (v : Vpc) (newSgId : String) :
    (p.setVpc v newSgId).2 =
      [ .createSecurityGroup p.security_group.name
          p.security_group.description v.vpc_id newSgId,
        .clobberSecurityGroup p.security_group.security_group_id,
        .configSet p.pars_name "security-group" newSgId,
        .clobberVpc p.vpc.vpc_id,
        .configSet p.pars_name "vpc" v.vpc_id ] ∧
    (p.setVpc v newSgId).1.vpc = v ∧
    (p.setVpc v newSgId).1.security_group =
      { security_group_id := newSgId, name := p.security_group.name,
        description := p.security_group.description, vpc_id := v.vpc_id } ∧
    ((p.setVpc v newSgId).2.countP
        (fun e => match e with
          | .createSecurityGroup _ _ _ _ => true
          | _ => false)) = 1 :=
  ⟨rfl, rfl, rfl, rfl⟩

/-- C5: `terminate` issues exactly one cancel call for a job whose
status is SUBMITTED, PENDING or RUNNABLE, exactly one terminate call for
STARTING or RUNNING, and no remote call for SUCCEEDED or FAILED. -/
theorem C5_terminate_cancels_or_terminates_by_status
    (j : BatchJob) (env : BatchEnv) (reason : String)
    (hc : j.clobbered = false) (hr : j.region = env.region)
    (hp : j.profile = env.profile) :
    (env.jobStatus.status = .SUBMITTED ∨ env.jobStatus.status = .PENDING ∨
        env.jobStatus.status = .RUNNABLE →
      j.terminate env reason = .ok [.cancelJob j.job_id reason]) ∧
    (env.jobStatus.status = .STARTING ∨ env.jobStatus.status = .RUNNING →
      j.terminate env reason = .ok [.terminateJob j.job_id reason]) ∧
    (env.jobStatus.status = .SUCCEEDED ∨ env.jobStatus.status = .FAILED →
      j.terminate env reason = .ok []) := by
  refine ⟨?_, ?_, ?_⟩
  · rintro (h | h | h) <;> simp [BatchJob.terminate, hc, hr, hp, h]
  · rintro (h | h) <;> simp [BatchJob.terminate, hc, hr, hp, h]
  · rintro (h | h) <;> simp [BatchJob.terminate, hc, hr, hp, h]

/-- Witness for C5: in `envSubmittedEx` (status SUBMITTED), `terminate`
issues exactly the cancel call. -/
theorem C5_witness_submitted_is_cancelled :
    BatchJob.terminate jobEx envSubmittedEx "stop" =
      .ok [.cancelJob "jid-1" "stop"] :=
  (C5_terminate_cancels_or_terminates_by_status jobEx envSubmittedEx "stop"
    rfl rfl rfl).1 (Or.inl rfl)

/-- C7 counterexample: for a PARS whose name is already recorded,
supplying the network *name* (`vpc_name`) is accepted — construction
proceeds to reconcile the recorded constituents instead of raising an
input-validation error, so not every caller-supplied constituent name is
rejected. -/
theorem C7_counterexample_vpc_name_not_rejected :
    truthyStr parsArgsVpcNameEx.vpc_name = true ∧
    parsInitExisting parsRecordEx parsArgsVpcNameEx =
      .ok [ .reconcileRole "r1", .reconcileRole "r2", .reconcileRole "r3",
            .reconcileVpc "vpc-123", .reconcileSecurityGroup "sg-123" ] :=
  ⟨rfl, rfl⟩

/-- C7 amended: for a PARS whose name is already recorded, construction
raises an input-validation error — before any constituent is adopted or
created — exactly when one of the five arguments `batch_service_role_name`,
`ecs_instance_role_name`, `spot_fleet_role_name`, `vpc_id`,
`security_group_id` is supplied; `vpc_name` and `security_group_name`
are accepted, and the recorded constituent set is then reconciled in
order. -/
theorem C7_amended_recorded_pars_rejects_five_args
    (rec : ParsRecord) (a : ParsArgs) :
    (parsInitExisting rec a =
        .error (.valueError
          "You provided resources for a pars that already exists in configuration file.")
      ↔ truthyStr a.batch_service_role_name = true ∨
          truthyStr a.ecs_instance_role_name = true ∨
          truthyStr a.spot_fleet_role_name = true ∨
          truthyStr a.vpc_id = true ∨
          truthyStr a.security_group_id = true) ∧
    (parsInitExisting rec a =
        .error (.valueError
          "You provided resources for a pars that already exists in configuration file.")
      ∨ parsInitExisting rec a =
          .ok [ .reconcileRole rec.batchServiceRole,
                .reconcileRole rec.ecsInstanceRole,
                .reconcileRole rec.spotFleetRole,
                .reconcileVpc rec.vpcId,
                .reconcileSecurityGroup rec.securityGroupId ]) := by
  unfold parsInitExisting
  by_cases h1 : truthyStr a.batch_service_role_name = true <;>
    by_cases h2 : truthyStr a.ecs_instance_role_name = true <;>
    by_cases h3 : truthyStr a.spot_fleet_role_name = true <;>
    by_cases h4 : truthyStr a.vpc_id = true <;>
    by_cases h5 : truthyStr a.security_group_id = true <;>
    simp_all

/-- C8: at the failing input — `delete_repository` raising a
`ClientError` whose code is `AccessDeniedException`, not the expected
repository-not-found signal — `DockerRepo.clobber` swallows the error
and completes: it removes the repo's config record and marks the
instance clobbered instead of propagating the error to the caller. -/
theorem C8_clobber_swallows_unexpected_client_error :
    DockerRepo.clobber repoEx ecrEnvEx
        (.clientError "AccessDeniedException"
          "User is not authorized to perform ecr:DeleteRepository") =
      .ok ({ repoEx with clobbered := true },
           [ .deleteRepository "0123" "myrepo",
             .removeConfigResource "myrepo" ]) := by
  simp [DockerRepo.clobber, repoEx, ecrEnvEx, strContains]

/-- C9: the `clobbered` flag starts false (`NamedObject.__init__`), is
monotone under every operation, is changed only by `clobber`, and once
it is true `status` and `terminate` raise the resource-clobbered error
while a repeated `clobber` is a no-op leaving the state unchanged. -/
theorem C9_clobbered_flag_monotone (j : BatchJob) (env : BatchEnv) :
    (∀ name region profile st,
        namedObjectInit name true region profile = .ok st →
          st.clobbered = false) ∧
    (∀ op, j.clobbered = true → ((j.step env op).1).clobbered = true) ∧
    (∀ op, op ≠ JobOp.clobberOp → ((j.step env op).1).clobbered = j.clobbered) ∧
    (j.clobbered = true →
      j.status env = .error (.resourceClobbered j.job_id) ∧
      (∀ r, j.terminate env r = .error (.resourceClobbered j.job_id)) ∧
      j.clobber env = .ok (j, [])) := by
  refine ⟨?_, ?_, ?_, ?_⟩
  · intro name region profile st h
    by_cases hn : nameOk name = true <;> simp [namedObjectInit, hn] at h
    simp [← h]
  · intro op hc
    cases op <;>
      simp [BatchJob.step, BatchJob.status, BatchJob.terminate,
        BatchJob.clobber, hc]
  · intro op hop
    cases op with
    | statusQ => rfl
    | terminateOp r => rfl
    | clobberOp => exact absurd rfl hop
  · intro hc
    refine ⟨?_, ?_, ?_⟩ <;>
      simp [BatchJob.status, BatchJob.terminate, BatchJob.clobber, hc]

/-- Witness for C9: on the already-clobbered `jobClobberedEx`, `status`
raises the resource-clobbered error. -/
theorem C9_witness_status_raises_after_clobber :
    BatchJob.status jobClobberedEx envFailedEx =
      .error (.resourceClobbered "jid-1") :=
  ((C9_clobbered_flag_monotone jobClobberedEx envFailedEx).2.2.2 rfl).1

/-- C10: `BatchJob.__init__` accepts exactly the two pure modes: either
`job_id` is supplied and none of (name, input, job queue, job
definition) is, or `job_id` is absent and all four are; every other
combination raises a `CloudknotInputError`. -/
theorem C10_init_mode_exclusion (a : BatchJobArgs) :
    (batchJobInitCheck a = .ok () ↔
      (truthyStr a.job_id = true ∧ truthyStr a.name = false ∧
        truthyStr a.job_queue = false ∧ a.input_.isSome = false ∧
        a.job_definition.isSome = false) ∨
      (truthyStr a.job_id = false ∧ truthyStr a.name = true ∧
        truthyStr a.job_queue = true ∧ a.input_.isSome = true ∧
        a.job_definition.isSome = true)) ∧
    (batchJobInitCheck a = .ok () ∨
      ∃ m, batchJobInitCheck a = .error (.inputError m)) := by
  unfold batchJobInitCheck
  by_cases h1 : truthyStr a.job_id = true <;>
    by_cases h2 : truthyStr a.name = true <;>
    by_cases h3 : truthyStr a.job_queue = true <;>
    by_cases h4 : a.input_.isSome = true <;>
    by_cases h5 : a.job_definition.isSome = true <;>
    simp_all

/-- The attempt scan succeeds with value `v` exactly when some attempt
`a ≤ r` has `v` staged and every higher attempt in `(a, r]` has nothing
staged: the scan runs from `r` downwards and the first hit wins. -/
theorem scanAttempts_ok_iff (get : String → Option String)
    (bucket : Option String) (jdName jobId : String) (idx : Nat) :
    ∀ (r : Nat) (v : String),
      scanAttempts get bucket jdName jobId idx r = .ok v ↔
        ∃ a, a ≤ r ∧ get (outputKey jdName jobId idx a) = some v ∧
          ∀ b, a < b → b ≤ r → get (outputKey jdName jobId idx b) = none := by
  intro r
  induction r with
  | zero =>
    intro v
    constructor
    · intro h
      cases hg : get (outputKey jdName jobId idx 0) with
      | none => simp [scanAttempts, hg] at h
      | some w =>
        simp [scanAttempts, hg] at h
        exact ⟨0, le_refl 0, by rw [hg, h], by intro b h1 h2; omega⟩
    · rintro ⟨a, ha, hget, _⟩
      interval_cases a
      simp [scanAttempts, hget]
  | succ n ih =>
    intro v
    cases hg : get (outputKey jdName jobId idx (n + 1)) with
    | some w =>
      constructor
      · intro h
        simp [scanAttempts, hg] at h
        exact ⟨n + 1, le_refl _, by rw [hg, h], by intro b h1 h2; omega⟩
      · rintro ⟨a, ha, hget, hnone⟩
        have haeq : a = n + 1 := by
          by_contra hne
          have hb := hnone (n + 1) (by omega) (le_refl _)
          rw [hg] at hb
          exact Option.noConfusion hb
        subst haeq
        rw [hget] at hg
        cases hg
        simp [scanAttempts, hget]
    | none =>
      have hstep : scanAttempts get bucket jdName jobId idx (n + 1) =
          scanAttempts get bucket jdName jobId idx n := by
        simp [scanAttempts, hg]
      rw [hstep, ih]
      constructor
      · rintro ⟨a, ha, hget, hnone⟩
        refine ⟨a, by omega, hget, ?_⟩
        intro b hab hb
        rcases Nat.lt_or_ge b (n + 1) with hlt | hge
        · exact hnone b hab (by omega)
        · have hbeq : b = n + 1 := by omega
          rw [hbeq]
          exact hg
      · rintro ⟨a, ha, hget, hnone⟩
        have han : a ≤ n := by
          rcases Nat.lt_or_ge a (n + 1) with hlt | hge
          · omega
          · have haeq : a = n + 1 := by omega
            rw [haeq] at hget
            rw [hget] at hg
            exact Option.noConfusion hg
        exact ⟨a, han, hget, fun b hab hb => hnone b hab (by omega)⟩

/-- If no attempt in `0..r` has an output staged, the scan raises the
timeout error carrying the bucket and the last key searched (attempt
0's key). -/
theorem scanAttempts_all_missing (get : String → Option String)
    (bucket : Option String) (jdName jobId : String) (idx : Nat) :
    ∀ (r : Nat), (∀ a, a ≤ r → get (outputKey jdName jobId idx a) = none) →
      scanAttempts get bucket jdName jobId idx r =
        .error (.ckTimeout bucket (outputKey jdName jobId idx 0)) := by
  intro r
  induction r with
  | zero =>
    intro h
    simp [scanAttempts, h 0 (le_refl 0)]
  | succ n ih =>
    intro h
    have hstep : scanAttempts get bucket jdName jobId idx (n + 1) =
        scanAttempts get bucket jdName jobId idx n := by
      simp [scanAttempts, h (n + 1) (le_refl _)]
    rw [hstep]
    exact ih (fun a ha => h a (by omega))

/-- Mapping with `List.mapM` in the `Except` monad succeeds elementwise. -/
theorem mapM_ok_of_forall {α β : Type} (f : α → Except CKErr β) (g : α → β) :
    ∀ (l : List α), (∀ x ∈ l, f x = .ok (g x)) →
      l.mapM f = .ok (l.map g) := by
  intro l
  induction l with
  | nil => intro _; rfl
  | cons x xs ih =>
    intro h
    rw [List.mapM_cons, h x (by simp), ih (fun y hy => h y (by simp [hy]))]
    rfl

/-- C2: result collection for retry ceiling `r` scans attempts `r` down
to 0 and returns the first staged payload (characterised: it returns `v`
iff some attempt `a ≤ r` stages `v` and every attempt above `a` stages
nothing); if no attempt stages an output it raises the timeout error
carrying the staging location searched; for an array job the scan runs
independently per index and the results aggregate into the ordered list
matching input order. -/
theorem C2_result_scan_high_to_low (j : BatchJob) (env : BatchEnv) :
    (∀ idx v, j.collectArrayJobResult env idx = .ok v ↔
        ∃ a, a ≤ j.job_definition.retries ∧
          env.s3 j.job_definition.output_bucket
            (outputKey j.job_definition.name j.job_id idx a) = some v ∧
          ∀ b, a < b → b ≤ j.job_definition.retries →
            env.s3 j.job_definition.output_bucket
              (outputKey j.job_definition.name j.job_id idx b) = none) ∧
    (∀ idx, (∀ a, a ≤ j.job_definition.retries →
          env.s3 j.job_definition.output_bucket
            (outputKey j.job_definition.name j.job_id idx a) = none) →
        j.collectArrayJobResult env idx =
          .error (.ckTimeout j.job_definition.output_bucket
            (outputKey j.job_definition.name j.job_id idx 0))) ∧
    (∀ (res : Nat → String),
        j.clobbered = false → j.region = env.region →
        j.profile = env.profile → env.jobStatus.status ≠ .FAILED →
        j.array_job = true →
        (∀ idx, idx < j.input.length →
          j.collectArrayJobResult env idx = .ok (res idx)) →
        j.resultCollection env =
          .ok (.array ((List.range j.input.length).map res))) := by
  refine ⟨?_, ?_, ?_⟩
  · intro idx v
    exact scanAttempts_ok_iff _ _ _ _ _ _ v
  · intro idx h
    exact scanAttempts_all_missing _ _ _ _ _ _ h
  · intro res hc hr hp hnf ha hok
    have hstat : j.status env = .ok env.jobStatus := by
      simp [BatchJob.status, hc, hr, hp]
    unfold BatchJob.resultCollection
    rw [hstat]
    simp only [hnf, if_false, ha, if_true]
    rw [mapM_ok_of_forall _ res _
      (fun x hx => hok x (List.mem_range.mp hx))]
    rfl

/-- Witness for C2 (the spec's scenario): `jobEx` has retry ceiling 3;
for index 0 only attempt 2's output is staged, so its payload is
returned (attempt 3's is never used); the array job aggregates indices 0
and 1 in input order. -/
theorem C2_witness_ceiling3_attempt2 :
    BatchJob.collectArrayJobResult jobEx envSucceededEx 0 = .ok "payload2" ∧
    BatchJob.resultCollection jobEx envSucceededEx =
      .ok (.array ["payload2", "payload-b"]) := by
  have h := C2_result_scan_high_to_low jobEx envSucceededEx
  constructor
  · refine (h.1 0 "payload2").mpr ⟨2, by decide, by decide, ?_⟩
    intro b h1 h2
    have h3 : b ≤ 3 := h2
    interval_cases b
    decide
  · have h2 := h.2.2 (fun idx => if idx = 0 then "payload2" else "payload-b")
      rfl rfl rfl (by decide) rfl ?_
    · exact h2
    · intro idx hidx
      have h3 : idx < 2 := hidx
      interval_cases idx <;> rfl

/-- Unfolding `String.intercalate` over a four-element list. -/
theorem intercalate_four (a b c d : String) :
    String.intercalate "/" [a, b, c, d] =
      a ++ "/" ++ b ++ "/" ++ c ++ "/" ++ d := rfl

/-- Unfolding `String.intercalate` over a six-element list. -/
theorem intercalate_six (a b c d e f : String) :
    String.intercalate "/" [a, b, c, d, e, f] =
      a ++ "/" ++ b ++ "/" ++ c ++ "/" ++ d ++ "/" ++ e ++ "/" ++ f := rfl

/-- C6 counterexample: `jobEx` is an array job over two elements, yet
`_create` stages its input as one object at
`cloudknot.jobs/<jd>/<job-id>/input.pickle` — the trace contains no put
at the claimed per-element keys `.../<job-id>/0/input.pickle` or
`.../<job-id>/1/input.pickle`. -/
theorem C6_counterexample_array_input_not_per_index :
    jobEx.array_job = true ∧
    (BatchJob.createTrace jobEx "jid-1").2 =
      [ .submitJob "myjob" "arn:queue" (some 2) "arn:jd",
        .putObject (some "bkt") "cloudknot.jobs/jd/jid-1/input.pickle",
        .addConfigResource "jid-1" "myjob" ] ∧
    (BatchJob.createTrace jobEx "jid-1").2.contains
      (.putObject (some "bkt") "cloudknot.jobs/jd/jid-1/0/input.pickle")
      = false ∧
    (BatchJob.createTrace jobEx "jid-1").2.contains
      (.putObject (some "bkt") "cloudknot.jobs/jd/jid-1/1/input.pickle")
      = false := by
  refine ⟨rfl, by decide, by decide, by decide⟩

/-- C6 amended: both single and array jobs stage their input as a single
object at `cloudknot.jobs/<jd-name>/<job-id>/input.pickle` (array
elements slice this one object by index at consumption); the put follows
the submit in the trace and its key is built from the job id the
submission returned; outputs are read at
`cloudknot.jobs/<jd-name>/<job-id>/<idx>/<attempt:03d>/output.pickle`
with the index segment always present — a non-array job's result reads
the index-0 keys. -/
theorem C6_amended_payload_keys (j : BatchJob) (jid : String)
    (env : BatchEnv) :
    (BatchJob.createTrace j jid).2 =
      [ .submitJob j.name j.job_queue_arn
          (if j.array_job then some j.input.length else none)
          j.job_definition.arn,
        .putObject j.job_definition.output_bucket
          ("cloudknot.jobs" ++ "/" ++ j.job_definition.name ++ "/" ++ jid
            ++ "/" ++ "input.pickle"),
        .addConfigResource jid j.name ] ∧
    (∀ idx a, outputKey j.job_definition.name jid idx a =
        "cloudknot.jobs" ++ "/" ++ j.job_definition.name ++ "/" ++ jid
          ++ "/" ++ toString idx ++ "/" ++ fmt03d a ++ "/"
          ++ "output.pickle") ∧
    (j.array_job = false → j.clobbered = false → j.region = env.region →
      j.profile = env.profile → env.jobStatus.status ≠ .FAILED →
      j.resultCollection env =
        (scanAttempts (env.s3 j.job_definition.output_bucket)
            j.job_definition.output_bucket j.job_definition.name j.job_id 0
            j.job_definition.retries).map ResultValue.single) := by
  refine ⟨rfl, fun idx a => rfl, ?_⟩
  intro ha hc hr hp hnf
  have hstat : j.status env = .ok env.jobStatus := by
    simp [BatchJob.status, hc, hr, hp]
  unfold BatchJob.resultCollection
  rw [hstat]
  simp only [hnf, if_false, ha]
  rfl

/-- Witness for C6: the non-array `jobSingleEx` reads its result from
the index-0 output keys; with attempt 2 staged it returns that
payload. -/
theorem C6_witness_single_job_index_zero :
    BatchJob.resultCollection jobSingleEx envSucceededEx =
      .ok (.single "payload2") := by
  have h := (C6_amended_payload_keys jobSingleEx "jid-1"
    envSucceededEx).2.2 rfl rfl rfl rfl (by decide)
  rw [h]
  rfl

end Cloudknot
